import Mathlib

/-! Extension security policy (`src/extension-support/tw-security-manager.js`)

A shallow embedding of the security manager of the VM: the module-level helpers
`parseURL`, `isTrustedExtension`, `isAlwaysTrustedForFetching`, and the class
`SecurityManager` with the methods that its prototype ends up holding.

Modelling choices.

* JavaScript strings are Lean strings.  Every literal the module compares against is
  ASCII, so comparing code points and comparing UTF-16 code units agree.
* The platform constructor `new URL(s)` is not part of the module.  It is a parameter
  `newURL : String → Option URL`; `none` stands for the `TypeError` it throws.  A `URL`
  carries the three properties the module reads: `href`, `origin`, `protocol`.
* The platform dialog `confirm(message)` is not part of the module either.  The answer
  of the user is a parameter `answer : List String → String → Bool` (it may depend on
  the dialogs shown so far and on the message), and every call is recorded in the
  session, so that "the prompt was invoked" is observable.
* A method returns either a plain value or `Promise.resolve(value)`; `Returned.settled`
  is the value a caller that awaits the result obtains.
* The class body declares `canFetch`, `canOpenWindow` and `canRedirect` twice.  Class
  evaluation defines the members on the prototype in source order, a later definition
  replacing an earlier one of the same name; `prototype` is computed that way from
  `classBody`.
-/

namespace TW

/-! ## Strings -/

/-- JavaScript `s.startsWith(searchString)`. -/
def startsWith (s searchString : String) : Bool :=
  searchString.toList.isPrefixOf s.toList

/-- JavaScript `s.endsWith(searchString)`. -/
def endsWith (s searchString : String) : Bool :=
  searchString.toList.isSuffixOf s.toList

/-- JavaScript `array.includes(x)` on an array of strings. -/
def includes (array : List String) (x : String) : Bool :=
  array.contains x

/-! ## Platform objects -/

/-- The properties of a platform `URL` object that the module reads. -/
structure URL where
  href : String
  origin : String
  protocol : String
deriving DecidableEq, Repr

/-- The two platform services the module calls. -/
structure Host where
  /-- The constructor `new URL(s)`; `none` when it throws. -/
  newURL : String → Option URL
  /-- The answer to `confirm(message)`, given the messages shown before. -/
  answer : List String → String → Bool

/-- The mutable state of a running session. -/
structure Session where
  /-- Messages passed to `confirm` so far, oldest first. -/
  prompts : List String
  /-- Contents of the module-level set `fetchOriginsTrustedByUser`. -/
  fetchOriginsTrustedByUser : List String
deriving DecidableEq, Repr

/-- The platform call `confirm(message)`: shows the dialog, returns the answer. -/
def confirm (host : Host) (message : String) (σ : Session) : Bool × Session :=
  (host.answer σ.prompts message, { σ with prompts := σ.prompts ++ [message] })

/-- The values the methods return. -/
inductive JSValue where
  | bool (b : Bool)
  | string (s : String)
deriving DecidableEq, Repr

/-- What a method hands back: a plain value, or `Promise.resolve(value)`. -/
inductive Returned where
  | value (v : JSValue)
  | promiseResolve (v : JSValue)
deriving DecidableEq, Repr

/-- The value obtained by awaiting the result of a method. -/
def Returned.settled : Returned → JSValue
  | .value v => v
  | .promiseResolve v => v

/-! ## Module-level helpers (lines 9-75) -/

/-- Lines 9-21. -/
def parseURL (newURL : String → Option URL) (url : String) : Option URL :=
  match newURL url with
  | none => none
  | some parsed =>
    let protocols := ["http:", "https:", "ws:", "wss:", "data:", "blob:"]
    if !(includes protocols parsed.protocol) then none else some parsed

/-- Lines 28-31. -/
def isTrustedExtension (url : String) : Bool :=
  startsWith url "https://extensions.turbowarp.org/" ||
  startsWith url "http://localhost:8000/"

/-- Lines 37-75. -/
def isAlwaysTrustedForFetching (parsed : URL) : Bool :=
  isTrustedExtension parsed.href ||
  parsed.origin == "https://turbowarp.org" ||
  endsWith parsed.origin ".turbowarp.org" ||
  endsWith parsed.origin ".turbowarp.xyz" ||
  parsed.origin == "https://raw.githubusercontent.com" ||
  parsed.origin == "https://api.github.com" ||
  endsWith parsed.origin ".github.io" ||
  parsed.origin == "https://gitlab.com" ||
  endsWith parsed.origin ".gitlab.io" ||
  endsWith parsed.origin ".bitbucket.io" ||
  endsWith parsed.origin ".itch.io" ||
  parsed.origin == "https://api.gamejolt.com" ||
  parsed.origin == "https://httpbin.org" ||
  parsed.origin == "https://scratchdb.lefty.one"

/-! ## The class body (lines 105-281), one definition per method declaration -/

/-- A method declared with one parameter. -/
abbrev Unary := Host → String → Session → Returned × Session

/-- A method declared without parameters. -/
abbrev Nullary := Host → Session → Returned × Session

namespace Decl

/-- Lines 111-114. -/
def getSandboxMode : Unary := fun _ extensionURL σ =>
  if isTrustedExtension extensionURL
  then (.promiseResolve (.string "unsandboxed"), σ)
  else (.promiseResolve (.string "iframe"), σ)

/-- The template literal of lines 128-131. -/
def loadExtensionMessage (extensionURL : String) : String :=
  "The project wants to load a custom extension from the URL:\n" ++ extensionURL ++
  "\nWhile the code will be sandboxed, it will still have access to information about your device such as your IP and general location. Make sure you trust the author of this extension before continuing.\nAllow this?"

/-- Lines 123-133. -/
def canLoadExtensionFromProject : Unary := fun host extensionURL σ =>
  if isTrustedExtension extensionURL then (.value (.bool true), σ)
  else
    let (allowed, σ1) := confirm host (loadExtensionMessage extensionURL) σ
    (.value (.bool allowed), σ1)

/-- Lines 143-167: the body is `return true;` followed by a comment. -/
def canFetch_1 : Unary := fun _ _ σ =>
  (.value (.bool true), σ)

/-- The template literal of lines 181-184. -/
def openWindowMessage (websiteURL : String) : String :=
  "The project wants to open a new window or tab with the URL:\n" ++ websiteURL ++
  "\nThis website has not been reviewed by the Codebase developers. It may contain dangerous or malicious code.\nAllow this?"

/-- Lines 176-185. -/
def canOpenWindow_1 : Unary := fun host websiteURL σ =>
  match parseURL host.newURL websiteURL with
  | none => (.value (.bool false), σ)
  | some _ =>
    let (allowed, σ1) := confirm host (openWindowMessage websiteURL) σ
    (.value (.bool allowed), σ1)

/-- The template literal of lines 200-203. -/
def redirectMessage (websiteURL : String) : String :=
  "The project wants to navigate this tab to the URL:\n" ++ websiteURL ++
  "\nThis website has not been reviewed by the Codebase developers. It may contain dangerous or malicious code.\nAllow this?"

/-- Lines 195-204. -/
def canRedirect_1 : Unary := fun host websiteURL σ =>
  match parseURL host.newURL websiteURL with
  | none => (.value (.bool false), σ)
  | some _ =>
    let (allowed, σ1) := confirm host (redirectMessage websiteURL) σ
    (.value (.bool allowed), σ1)

/-- Lines 212-214. -/
def canRecordAudio : Nullary := fun _ σ =>
  (.promiseResolve (.bool true), σ)

/-- Lines 221-223. -/
def canRecordVideo : Nullary := fun _ σ =>
  (.promiseResolve (.bool true), σ)

/-- Lines 231-233. -/
def canReadClipboard : Nullary := fun _ σ =>
  (.promiseResolve (.bool true), σ)

/-- Lines 240-242. -/
def canNotify : Nullary := fun _ σ =>
  (.promiseResolve (.bool true), σ)

/-- Lines 252-255. -/
def canFetch_2 : Unary := fun _ _ σ =>
  (.promiseResolve (.bool true), σ)

/-- Lines 264-267. -/
def canOpenWindow_2 : Unary := fun _ _ σ =>
  (.promiseResolve (.bool true), σ)

/-- Lines 277-280. -/
def canRedirect_2 : Unary := fun _ _ σ =>
  (.promiseResolve (.bool true), σ)

end Decl

/-- A member of the class body. -/
inductive Member where
  | unary (body : Unary)
  | nullary (body : Nullary)

/-- The method declarations of `class SecurityManager`, in source order. -/
def classBody : List (String × Member) :=
  [ ("getSandboxMode", .unary Decl.getSandboxMode),
    ("canLoadExtensionFromProject", .unary Decl.canLoadExtensionFromProject),
    ("canFetch", .unary Decl.canFetch_1),
    ("canOpenWindow", .unary Decl.canOpenWindow_1),
    ("canRedirect", .unary Decl.canRedirect_1),
    ("canRecordAudio", .nullary Decl.canRecordAudio),
    ("canRecordVideo", .nullary Decl.canRecordVideo),
    ("canReadClipboard", .nullary Decl.canReadClipboard),
    ("canNotify", .nullary Decl.canNotify),
    ("canFetch", .unary Decl.canFetch_2),
    ("canOpenWindow", .unary Decl.canOpenWindow_2),
    ("canRedirect", .unary Decl.canRedirect_2) ]

/-- Defining a method on the prototype object: the property `d.1` now holds `d.2`,
whatever it held before. -/
def defineMethod (proto : String → Option Member) (d : String × Member) :
    String → Option Member :=
  fun key => if key = d.1 then some d.2 else proto key

/-- The object `SecurityManager.prototype` after the class body has been evaluated. -/
def prototype : String → Option Member :=
  classBody.foldl defineMethod (fun _ => none)

/-- The call `securityManager[name](arg)`; `none` when the property is not a method. -/
def call1 (name : String) (host : Host) (arg : String) (σ : Session) :
    Option (Returned × Session) :=
  match prototype name with
  | some (.unary body) => some (body host arg σ)
  | some (.nullary body) => some (body host σ)
  | none => none

/-- The call `securityManager[name]()` of a method declared without parameters. -/
def call0 (name : String) (host : Host) (σ : Session) :
    Option (Returned × Session) :=
  match prototype name with
  | some (.nullary body) => some (body host σ)
  | _ => none

/-! ## The methods as an instance of `SecurityManager` exposes them -/

namespace SecurityManager

def getSandboxMode (host : Host) (extensionURL : String) (σ : Session) :=
  call1 "getSandboxMode" host extensionURL σ

def canLoadExtensionFromProject (host : Host) (extensionURL : String) (σ : Session) :=
  call1 "canLoadExtensionFromProject" host extensionURL σ

def canFetch (host : Host) (resourceURL : String) (σ : Session) :=
  call1 "canFetch" host resourceURL σ

def canOpenWindow (host : Host) (websiteURL : String) (σ : Session) :=
  call1 "canOpenWindow" host websiteURL σ

def canRedirect (host : Host) (websiteURL : String) (σ : Session) :=
  call1 "canRedirect" host websiteURL σ

def canRecordAudio (host : Host) (σ : Session) :=
  call0 "canRecordAudio" host σ

def canRecordVideo (host : Host) (σ : Session) :=
  call0 "canRecordVideo" host σ

def canReadClipboard (host : Host) (σ : Session) :=
  call0 "canReadClipboard" host σ

def canNotify (host : Host) (σ : Session) :=
  call0 "canNotify" host σ

end SecurityManager

/-! ## Sample data

Results of the platform constructor `new URL(s)` for the strings used in the examples
below (the three properties the module reads), and a host built from them. -/

/-- The object `new URL("javascript:alert(1)")`. -/
def javascriptAlert : URL :=
  { href := "javascript:alert(1)", origin := "null", protocol := "javascript:" }

/-- The object `new URL("https://example.com/")`. -/
def exampleCom : URL :=
  { href := "https://example.com/", origin := "https://example.com", protocol := "https:" }

/-- The object `new URL("https://raw.githubusercontent.com/x")`. -/
def rawGithubX : URL :=
  { href := "https://raw.githubusercontent.com/x",
    origin := "https://raw.githubusercontent.com", protocol := "https:" }

/-- The object `new URL("https://raw.githubusercontent.com/y")`. -/
def rawGithubY : URL :=
  { href := "https://raw.githubusercontent.com/y",
    origin := "https://raw.githubusercontent.com", protocol := "https:" }

/-- The object `new URL("http://localhost:8000/a")`. -/
def localhostA : URL :=
  { href := "http://localhost:8000/a", origin := "http://localhost:8000", protocol := "http:" }

/-- The object `new URL("http://user@localhost:8000/a")`. -/
def localhostUserA : URL :=
  { href := "http://user@localhost:8000/a", origin := "http://localhost:8000",
    protocol := "http:" }

/-- The object `new URL("ftp://x.github.io/")`. -/
def ftpGithubPages : URL :=
  { href := "ftp://x.github.io/", origin := "ftp://x.github.io", protocol := "ftp:" }

/-- A table of `new URL` on the sample strings; every other string is left out of the
table (`none`), as is the unparsable `"not a url"`. -/
def sampleNewURL (s : String) : Option URL :=
  if s = "javascript:alert(1)" then some javascriptAlert
  else if s = "https://example.com/" then some exampleCom
  else if s = "https://raw.githubusercontent.com/x" then some rawGithubX
  else if s = "http://localhost:8000/a" then some localhostA
  else if s = "http://user@localhost:8000/a" then some localhostUserA
  else if s = "ftp://x.github.io/" then some ftpGithubPages
  else none

/-- A host with the sample table and a user who declines every dialog. -/
def decliningHost : Host :=
  { newURL := sampleNewURL, answer := fun _ _ => false }

/-- A fresh session: no dialog shown, nothing in the consent cache. -/
def freshSession : Session :=
  { prompts := [], fetchOriginsTrustedByUser := [] }

/-! ## Vocabulary of the statements -/

/-- The string `url` begins with one of the two auto-load origins. -/
def HasAutoLoadPrefix (url : String) : Prop :=
  (∃ rest : String, url = "https://extensions.turbowarp.org/" ++ rest) ∨
  (∃ rest : String, url = "http://localhost:8000/" ++ rest)

/-- The string `message` contains `url`. -/
def Mentions (message url : String) : Prop :=
  ∃ before after : String, message = before ++ url ++ after

/-- The origin `origin` is on the fetch allowlist of lines 48-74: it is one of seven
origins, or it ends with one of six suffixes. -/
def OriginOnFetchAllowlist (origin : String) : Prop :=
  origin ∈ ["https://turbowarp.org", "https://raw.githubusercontent.com",
      "https://api.github.com", "https://gitlab.com", "https://api.gamejolt.com",
      "https://httpbin.org", "https://scratchdb.lefty.one"] ∨
  ∃ sfx ∈ [".turbowarp.org", ".turbowarp.xyz", ".github.io", ".gitlab.io",
      ".bitbucket.io", ".itch.io"], ∃ front : String, origin = front ++ sfx

/-! ## Sequences of calls -/

/-- A call of one of the nine methods of a `SecurityManager` instance. -/
inductive Operation where
  | getSandboxMode (extensionURL : String)
  | canLoadExtensionFromProject (extensionURL : String)
  | canFetch (resourceURL : String)
  | canOpenWindow (websiteURL : String)
  | canRedirect (websiteURL : String)
  | canRecordAudio
  | canRecordVideo
  | canReadClipboard
  | canNotify
deriving DecidableEq, Repr

/-- Performing one call in a session. -/
def Operation.perform (host : Host) (op : Operation) (σ : Session) :
    Option (Returned × Session) :=
  match op with
  | .getSandboxMode extensionURL => SecurityManager.getSandboxMode host extensionURL σ
  | .canLoadExtensionFromProject extensionURL =>
    SecurityManager.canLoadExtensionFromProject host extensionURL σ
  | .canFetch resourceURL => SecurityManager.canFetch host resourceURL σ
  | .canOpenWindow websiteURL => SecurityManager.canOpenWindow host websiteURL σ
  | .canRedirect websiteURL => SecurityManager.canRedirect host websiteURL σ
  | .canRecordAudio => SecurityManager.canRecordAudio host σ
  | .canRecordVideo => SecurityManager.canRecordVideo host σ
  | .canReadClipboard => SecurityManager.canReadClipboard host σ
  | .canNotify => SecurityManager.canNotify host σ

/-- Performing a finite sequence of calls one after the other; the session at the end. -/
def performAll (host : Host) : List Operation → Session → Option Session
  | [], σ => some σ
  | op :: ops, σ =>
    match op.perform host σ with
    | none => none
    | some (_, σ1) => performAll host ops σ1

/-! ## More sample data -/

/-- The object `new URL("https://unknown.example/x")`. -/
def unknownExampleX : URL :=
  { href := "https://unknown.example/x", origin := "https://unknown.example",
    protocol := "https:" }

/-- The sample table extended with `https://unknown.example/x`. -/
def unknownNewURL (s : String) : Option URL :=
  if s = "https://unknown.example/x" then some unknownExampleX else sampleNewURL s

/-- A host with the extended table and a user who declines every dialog. -/
def unknownDecliningHost : Host :=
  { newURL := unknownNewURL, answer := fun _ _ => false }

/-- A session in which the set holds the origin `https://unknown.example`. -/
def approvedSession : Session :=
  { prompts := [], fetchOriginsTrustedByUser := ["https://unknown.example"] }

/-! ## Argument types (`src/extension-support/argument-type.js`) -/

/-- Lines 5-74: the properties of the object literal `ArgumentType`, in source order,
each with its key and its string value. -/
def ArgumentType : List (String × String) :=
  [ ("ANGLE", "angle"),
    ("BOOLEAN", "Boolean"),
    ("COLOR", "color"),
    ("NUMBER", "number"),
    ("STRING", "string"),
    ("MATRIX", "matrix"),
    ("NOTE", "note"),
    ("IMAGE", "image"),
    ("POLYGON", "polygon"),
    ("COSTUME", "costume"),
    ("SOUND", "sound"),
    ("VARIABLE", "variable"),
    ("LIST", "list") ]

/-- The property read `ArgumentType[key]`; `none` when the object has no such key. -/
def ArgumentType.get (key : String) : Option String :=
  (ArgumentType.find? (fun kv => kv.1 == key)).map Prod.snd

/-- The key of the first property whose value is `identifier`. -/
def ArgumentType.kindOf (identifier : String) : Option String :=
  (ArgumentType.find? (fun kv => kv.2 == identifier)).map Prod.fst

/-! ## The authority of a URL string, read off the text -/

/-- The characters that follow the first occurrence of `://`; `none` when the text has
no `://`. -/
def afterSchemeSeparator : List Char → Option (List Char)
  | [] => none
  | c :: cs =>
    if [':', '/', '/'].isPrefixOf (c :: cs) then some (cs.drop 2)
    else afterSchemeSeparator cs

/-- The characters that precede the first `/`; `none` when the text has no `/`. -/
def beforeSlash : List Char → Option (List Char)
  | [] => none
  | c :: cs => if c = '/' then some [] else (beforeSlash cs).map (fun front => c :: front)

/-- The text of `url` between the first `://` and the first `/` after it; `none` when one
of the two delimiters is missing. -/
def authorityText (url : String) : Option String :=
  match afterSchemeSeparator url.toList with
  | none => none
  | some cs => (beforeSlash cs).map String.mk

/-! ## Facts about strings and the prototype -/

theorem startsWith_iff (s p : String) :
    startsWith s p = true ↔ ∃ rest : String, s = p ++ rest := by
  unfold startsWith
  rw [List.isPrefixOf_iff_prefix]
  constructor
  · rintro ⟨t, ht⟩
    refine ⟨⟨t⟩, String.ext ?_⟩
    simpa using ht.symm
  · rintro ⟨rest, rfl⟩
    exact ⟨rest.data, by simp⟩

theorem endsWith_iff (s p : String) :
    endsWith s p = true ↔ ∃ front : String, s = front ++ p := by
  unfold endsWith
  rw [List.isSuffixOf_iff_suffix]
  constructor
  · rintro ⟨t, ht⟩
    refine ⟨⟨t⟩, String.ext ?_⟩
    simpa using ht.symm
  · rintro ⟨front, rfl⟩
    exact ⟨front.data, by simp⟩

theorem isTrustedExtension_iff (url : String) :
    isTrustedExtension url = true ↔ HasAutoLoadPrefix url := by
  unfold isTrustedExtension HasAutoLoadPrefix
  rw [Bool.or_eq_true, startsWith_iff, startsWith_iff]

theorem isTrustedExtension_eq_false_iff (url : String) :
    isTrustedExtension url = false ↔ ¬ HasAutoLoadPrefix url := by
  rw [← isTrustedExtension_iff, Bool.not_eq_true]

theorem prototype_getSandboxMode :
    prototype "getSandboxMode" = some (.unary Decl.getSandboxMode) := rfl

theorem prototype_canLoadExtensionFromProject :
    prototype "canLoadExtensionFromProject"
      = some (.unary Decl.canLoadExtensionFromProject) := rfl

theorem prototype_canFetch :
    prototype "canFetch" = some (.unary Decl.canFetch_2) := rfl

theorem prototype_canOpenWindow :
    prototype "canOpenWindow" = some (.unary Decl.canOpenWindow_2) := rfl

theorem prototype_canRedirect :
    prototype "canRedirect" = some (.unary Decl.canRedirect_2) := rfl

theorem canFetch_eq (host : Host) (url : String) (σ : Session) :
    SecurityManager.canFetch host url σ = some (.promiseResolve (.bool true), σ) := rfl

theorem getSandboxMode_eq (host : Host) (url : String) (σ : Session) :
    SecurityManager.getSandboxMode host url σ
      = some (.promiseResolve (.string (if isTrustedExtension url then "unsandboxed"
          else "iframe")), σ) := by
  unfold SecurityManager.getSandboxMode call1
  rw [prototype_getSandboxMode]
  simp only [Decl.getSandboxMode]
  split <;> rfl

theorem canLoadExtensionFromProject_eq (host : Host) (url : String) (σ : Session) :
    SecurityManager.canLoadExtensionFromProject host url σ
      = some (if isTrustedExtension url then (.value (.bool true), σ)
          else (.value (.bool (host.answer σ.prompts (Decl.loadExtensionMessage url))),
            { σ with prompts := σ.prompts ++ [Decl.loadExtensionMessage url] })) := by
  unfold SecurityManager.canLoadExtensionFromProject call1
  rw [prototype_canLoadExtensionFromProject]
  simp only [Decl.canLoadExtensionFromProject, confirm]

theorem loadExtensionMessage_mentions (url : String) :
    Mentions (Decl.loadExtensionMessage url) url :=
  ⟨_, _, rfl⟩

/-! ## C1: sandbox mode selection -/

/-- C1: for every string `url`, `getSandboxMode(url)` resolves to `unsandboxed` exactly
when `url` starts with `https://extensions.turbowarp.org/` or `http://localhost:8000/`,
and to `iframe` exactly when it does not; the mode is never `worker`, and the session is
left as it was.  The three scenarios of the specification are the last conjuncts. -/
theorem getSandboxMode_spec (host : Host) (url : String) (σ : Session) :
    (SecurityManager.getSandboxMode host url σ
        = some (.promiseResolve (.string "unsandboxed"), σ) ↔ HasAutoLoadPrefix url) ∧
    (SecurityManager.getSandboxMode host url σ
        = some (.promiseResolve (.string "iframe"), σ) ↔ ¬ HasAutoLoadPrefix url) ∧
    (∃ mode, SecurityManager.getSandboxMode host url σ
        = some (.promiseResolve (.string mode), σ) ∧ mode ≠ "worker") ∧
    SecurityManager.getSandboxMode host "https://extensions.turbowarp.org/foo.js" σ
        = some (.promiseResolve (.string "unsandboxed"), σ) ∧
    SecurityManager.getSandboxMode host "http://localhost:8000/foo.js" σ
        = some (.promiseResolve (.string "unsandboxed"), σ) ∧
    SecurityManager.getSandboxMode host "https://evil.example/foo.js" σ
        = some (.promiseResolve (.string "iframe"), σ) := by
  refine ⟨?_, ?_, ?_, ?_, ?_, ?_⟩
  · rw [getSandboxMode_eq, ← isTrustedExtension_iff]
    cases h : isTrustedExtension url <;> simp
  · rw [getSandboxMode_eq, ← isTrustedExtension_iff]
    cases h : isTrustedExtension url <;> simp
  · rw [getSandboxMode_eq]
    cases h : isTrustedExtension url
    · exact ⟨"iframe", by simp, by decide⟩
    · exact ⟨"unsandboxed", by simp, by decide⟩
  · rw [getSandboxMode_eq]
    have h : isTrustedExtension "https://extensions.turbowarp.org/foo.js" = true := by decide
    simp [h]
  · rw [getSandboxMode_eq]
    have h : isTrustedExtension "http://localhost:8000/foo.js" = true := by decide
    simp [h]
  · rw [getSandboxMode_eq]
    have h : isTrustedExtension "https://evil.example/foo.js" = false := by decide
    simp [h]

/-! ## C2, C3: window opening and redirection -/

/-- C2: the methods `canOpenWindow` and `canRedirect` that the prototype holds are the
second declarations (lines 264 and 277): for every argument they resolve to `true`
without a dialog.  So for `javascript:alert(1)`, which `parseURL` rejects, the decision
is Allow, whereas the first declarations (lines 176 and 195) return `false` for it. -/
theorem canOpenWindow_canRedirect_allow_rejected_url :
    parseURL decliningHost.newURL "javascript:alert(1)" = none ∧
    parseURL decliningHost.newURL "not a url" = none ∧
    (∀ (host : Host) (url : String) (σ : Session),
      SecurityManager.canOpenWindow host url σ = some (.promiseResolve (.bool true), σ) ∧
      SecurityManager.canRedirect host url σ = some (.promiseResolve (.bool true), σ)) ∧
    SecurityManager.canOpenWindow decliningHost "javascript:alert(1)" freshSession
      = some (.promiseResolve (.bool true), freshSession) ∧
    SecurityManager.canRedirect decliningHost "javascript:alert(1)" freshSession
      = some (.promiseResolve (.bool true), freshSession) ∧
    Decl.canOpenWindow_1 decliningHost "javascript:alert(1)" freshSession
      = (.value (.bool false), freshSession) ∧
    Decl.canRedirect_1 decliningHost "javascript:alert(1)" freshSession
      = (.value (.bool false), freshSession) := by
  refine ⟨by decide, by decide, fun host url σ => ⟨?_, ?_⟩, ?_, ?_, by decide, by decide⟩
  · unfold SecurityManager.canOpenWindow call1
    rw [prototype_canOpenWindow]
    rfl
  · unfold SecurityManager.canRedirect call1
    rw [prototype_canRedirect]
    rfl
  · unfold SecurityManager.canOpenWindow call1
    rw [prototype_canOpenWindow]
    rfl
  · unfold SecurityManager.canRedirect call1
    rw [prototype_canRedirect]
    rfl

/-- C3: for `https://example.com/`, which `parseURL` accepts, and a user who would
decline, the methods `canOpenWindow` and `canRedirect` that the prototype holds resolve
to `true` and show no dialog; the first declarations (lines 176 and 195) show one dialog
that contains the URL and return the answer of the user, `false`. -/
theorem canOpenWindow_canRedirect_skip_dialog :
    parseURL decliningHost.newURL "https://example.com/" = some exampleCom ∧
    SecurityManager.canOpenWindow decliningHost "https://example.com/" freshSession
      = some (.promiseResolve (.bool true), freshSession) ∧
    SecurityManager.canRedirect decliningHost "https://example.com/" freshSession
      = some (.promiseResolve (.bool true), freshSession) ∧
    Decl.canOpenWindow_1 decliningHost "https://example.com/" freshSession
      = (.value (.bool false),
          { freshSession with prompts := [Decl.openWindowMessage "https://example.com/"] }) ∧
    Decl.canRedirect_1 decliningHost "https://example.com/" freshSession
      = (.value (.bool false),
          { freshSession with prompts := [Decl.redirectMessage "https://example.com/"] }) ∧
    Mentions (Decl.openWindowMessage "https://example.com/") "https://example.com/" ∧
    Mentions (Decl.redirectMessage "https://example.com/") "https://example.com/" := by
  refine ⟨by decide, ?_, ?_, rfl, rfl, ⟨_, _, rfl⟩, ⟨_, _, rfl⟩⟩
  · unfold SecurityManager.canOpenWindow call1
    rw [prototype_canOpenWindow]
    rfl
  · unfold SecurityManager.canRedirect call1
    rw [prototype_canRedirect]
    rfl

/-! ## C4: URL validation -/

/-- C4: for every string `s`, `parseURL(s)` is `null` exactly when the URL parser fails
on `s` or the protocol of the parsed URL is not one of `http:`, `https:`, `ws:`, `wss:`,
`data:`, `blob:`; otherwise it is the object the parser returned, unchanged.  The
function is total and takes no session, so it neither throws nor has a side effect. -/
theorem parseURL_spec (newURL : String → Option URL) (s : String) :
    (parseURL newURL s = none ↔
      newURL s = none ∨
      ∃ u, newURL s = some u ∧
        u.protocol ∉ ["http:", "https:", "ws:", "wss:", "data:", "blob:"]) ∧
    (parseURL newURL s = none ∨ parseURL newURL s = newURL s) ∧
    parseURL sampleNewURL "javascript:alert(1)" = none ∧
    parseURL sampleNewURL "https://example.com/" = some exampleCom := by
  have hmem : ∀ u : URL,
      includes ["http:", "https:", "ws:", "wss:", "data:", "blob:"] u.protocol = true ↔
        u.protocol ∈ ["http:", "https:", "ws:", "wss:", "data:", "blob:"] := by
    intro u
    unfold includes List.contains
    exact List.elem_iff
  refine ⟨?_, ?_, by decide, by decide⟩
  · unfold parseURL
    cases h : newURL s with
    | none => simp
    | some u =>
      by_cases hu : includes ["http:", "https:", "ws:", "wss:", "data:", "blob:"] u.protocol
      · have hin := (hmem u).1 hu
        simp only [hu, Bool.not_true, Bool.false_eq_true, if_false]
        constructor
        · intro h1
          cases h1
        · rintro (h1 | ⟨v, hv, hnot⟩)
          · cases h1
          · cases hv
            exact absurd hin hnot
      · have hin : u.protocol ∉ ["http:", "https:", "ws:", "wss:", "data:", "blob:"] :=
          fun h1 => hu ((hmem u).2 h1)
        simp only [hu, Bool.not_false, if_true]
        exact ⟨fun _ => Or.inr ⟨u, rfl, hin⟩, fun _ => trivial⟩
  · unfold parseURL
    cases h : newURL s with
    | none => simp
    | some u =>
      by_cases hu : includes ["http:", "https:", "ws:", "wss:", "data:", "blob:"] u.protocol
      · simp [hu]
      · simp [hu]

/-! ## Facts about the fetch allowlist -/

theorem isAlwaysTrustedForFetching_iff_or (p : URL) :
    isAlwaysTrustedForFetching p = true ↔
      isTrustedExtension p.href = true ∨ OriginOnFetchAllowlist p.origin := by
  unfold isAlwaysTrustedForFetching OriginOnFetchAllowlist
  simp only [Bool.or_eq_true, beq_iff_eq, endsWith_iff, List.mem_cons, List.mem_singleton,
    List.not_mem_nil, or_false, exists_eq_or_imp, exists_eq_left]
  tauto

/-! ## C6: loading an extension stored in a project -/

/-- C6: for every string `url`, either `url` has an auto-load prefix and
`canLoadExtensionFromProject(url)` returns `true` with the session untouched (no
dialog), or it has none and the call shows exactly one dialog, whose message contains
`url`, and returns the answer to it (so a declined dialog gives `false`); a second call
with the same `url` in the resulting session shows the same dialog once more. -/
theorem canLoadExtensionFromProject_spec (host : Host) (url : String) (σ : Session) :
    (HasAutoLoadPrefix url ∧
      SecurityManager.canLoadExtensionFromProject host url σ
        = some (.value (.bool true), σ)) ∨
    (¬ HasAutoLoadPrefix url ∧
      ∃ message, Mentions message url ∧
        SecurityManager.canLoadExtensionFromProject host url σ
          = some (.value (.bool (host.answer σ.prompts message)),
              { σ with prompts := σ.prompts ++ [message] }) ∧
        SecurityManager.canLoadExtensionFromProject host url
            { σ with prompts := σ.prompts ++ [message] }
          = some (.value (.bool (host.answer (σ.prompts ++ [message]) message)),
              { σ with prompts := σ.prompts ++ [message] ++ [message] })) := by
  cases h : isTrustedExtension url with
  | true =>
    refine Or.inl ⟨(isTrustedExtension_iff url).1 h, ?_⟩
    rw [canLoadExtensionFromProject_eq, h]
    rfl
  | false =>
    refine Or.inr ⟨(isTrustedExtension_eq_false_iff url).1 h,
      Decl.loadExtensionMessage url, loadExtensionMessage_mentions url, ?_, ?_⟩
    · rw [canLoadExtensionFromProject_eq, h]
      rfl
    · rw [canLoadExtensionFromProject_eq, h]
      rfl

/-! ## C7, C8: the permissive checks -/

/-- C7: for every string `resourceURL` and every session, `canFetch(resourceURL)`
resolves to `true`; no dialog is shown and `fetchOriginsTrustedByUser` is unchanged
(the session after the call is the session before it). -/
theorem canFetch_spec (host : Host) (resourceURL : String) (σ : Session) :
    SecurityManager.canFetch host resourceURL σ
      = some (.promiseResolve (.bool true), σ) := by
  unfold SecurityManager.canFetch call1
  rw [prototype_canFetch]
  rfl

/-- C8: in every session, `canRecordAudio()`, `canRecordVideo()`, `canReadClipboard()`
and `canNotify()` resolve to `true`; no dialog is shown and the consent cache is
unchanged (the session after the call is the session before it). -/
theorem canRecord_canRead_canNotify_spec (host : Host) (σ : Session) :
    SecurityManager.canRecordAudio host σ = some (.promiseResolve (.bool true), σ) ∧
    SecurityManager.canRecordVideo host σ = some (.promiseResolve (.bool true), σ) ∧
    SecurityManager.canReadClipboard host σ = some (.promiseResolve (.bool true), σ) ∧
    SecurityManager.canNotify host σ = some (.promiseResolve (.bool true), σ) :=
  ⟨rfl, rfl, rfl, rfl⟩

/-! ## C9, C10: the fetch allowlist -/

/-- C9: for every parsed URL `p`, `isAlwaysTrustedForFetching(p)` is true exactly when
`isTrustedExtension(p.href)` holds, or `p.origin` is one of the seven listed origins, or
`p.origin` ends with one of the six listed suffixes.  The parsed form of
`https://raw.githubusercontent.com/x` is classified as trusted. -/
theorem isAlwaysTrustedForFetching_spec (p : URL) :
    (isAlwaysTrustedForFetching p = true ↔
      isTrustedExtension p.href = true ∨
      p.origin ∈ ["https://turbowarp.org", "https://raw.githubusercontent.com",
        "https://api.github.com", "https://gitlab.com", "https://api.gamejolt.com",
        "https://httpbin.org", "https://scratchdb.lefty.one"] ∨
      ∃ sfx ∈ [".turbowarp.org", ".turbowarp.xyz", ".github.io", ".gitlab.io",
        ".bitbucket.io", ".itch.io"], ∃ front : String, p.origin = front ++ sfx) ∧
    sampleNewURL "https://raw.githubusercontent.com/x" = some rawGithubX ∧
    isAlwaysTrustedForFetching rawGithubX = true := by
  refine ⟨?_, by decide, by decide⟩
  rw [isAlwaysTrustedForFetching_iff_or]
  rfl

/-- C10 (counterexample): the parsed forms of `http://localhost:8000/a` and of
`http://user@localhost:8000/a` have the same origin, `http://localhost:8000`, and
`isAlwaysTrustedForFetching` is true for the first and false for the second. -/
theorem same_origin_different_fetch_trust :
    sampleNewURL "http://localhost:8000/a" = some localhostA ∧
    sampleNewURL "http://user@localhost:8000/a" = some localhostUserA ∧
    localhostA.origin = localhostUserA.origin ∧
    isAlwaysTrustedForFetching localhostA = true ∧
    isAlwaysTrustedForFetching localhostUserA = false := by
  decide

/-- C10 (amended): `isAlwaysTrustedForFetching` is a predicate of the origin and of
whether the `href` has an auto-load prefix: two parsed URLs with the same origin and the
same value of `isTrustedExtension` on their `href` are classified alike. -/
theorem isAlwaysTrustedForFetching_congr (p q : URL) (horigin : p.origin = q.origin)
    (hhref : isTrustedExtension p.href = isTrustedExtension q.href) :
    isAlwaysTrustedForFetching p = isAlwaysTrustedForFetching q := by
  unfold isAlwaysTrustedForFetching
  rw [horigin, hhref]

/-- C10 (witness): the amended statement at the parsed forms of
`https://raw.githubusercontent.com/x` and `https://raw.githubusercontent.com/y`, which
have the same origin and no auto-load prefix. -/
theorem isAlwaysTrustedForFetching_congr_witness :
    rawGithubX.origin = rawGithubY.origin ∧
    isTrustedExtension rawGithubX.href = isTrustedExtension rawGithubY.href ∧
    isAlwaysTrustedForFetching rawGithubX = isAlwaysTrustedForFetching rawGithubY :=
  ⟨rfl, by decide, isAlwaysTrustedForFetching_congr rawGithubX rawGithubY rfl (by decide)⟩

/-! ## C11: auto-load trust implies fetch trust -/

/-- C11: for every parsed URL `p`, if `isTrustedExtension(p.href)` holds then
`isAlwaysTrustedForFetching(p)` holds. -/
theorem isTrustedExtension_imp_isAlwaysTrustedForFetching (p : URL)
    (h : isTrustedExtension p.href = true) : isAlwaysTrustedForFetching p = true :=
  (isAlwaysTrustedForFetching_iff_or p).2 (Or.inl h)

/-- C11 (witness): the parsed form of `http://localhost:8000/a`. -/
theorem isTrustedExtension_imp_isAlwaysTrustedForFetching_witness :
    isTrustedExtension localhostA.href = true ∧
    isAlwaysTrustedForFetching localhostA = true :=
  ⟨by decide, isTrustedExtension_imp_isAlwaysTrustedForFetching localhostA (by decide)⟩

/-! ## Facts about sequences of calls -/

theorem perform_cache (host : Host) (op : Operation) (σ : Session) :
    ∃ r σ1, op.perform host σ = some (r, σ1) ∧
      σ1.fetchOriginsTrustedByUser = σ.fetchOriginsTrustedByUser := by
  cases op with
  | getSandboxMode u => exact ⟨_, _, getSandboxMode_eq host u σ, rfl⟩
  | canLoadExtensionFromProject u =>
    have heq := canLoadExtensionFromProject_eq host u σ
    cases h : isTrustedExtension u with
    | true =>
      rw [h] at heq
      exact ⟨_, _, heq, rfl⟩
    | false =>
      rw [h] at heq
      exact ⟨_, _, heq, rfl⟩
  | canFetch u => exact ⟨_, _, rfl, rfl⟩
  | canOpenWindow u => exact ⟨_, _, rfl, rfl⟩
  | canRedirect u => exact ⟨_, _, rfl, rfl⟩
  | canRecordAudio => exact ⟨_, _, rfl, rfl⟩
  | canRecordVideo => exact ⟨_, _, rfl, rfl⟩
  | canReadClipboard => exact ⟨_, _, rfl, rfl⟩
  | canNotify => exact ⟨_, _, rfl, rfl⟩

theorem performAll_cache (host : Host) (ops : List Operation) :
    ∀ σ : Session, ∃ σ1, performAll host ops σ = some σ1 ∧
      σ1.fetchOriginsTrustedByUser = σ.fetchOriginsTrustedByUser := by
  induction ops with
  | nil => exact fun σ => ⟨σ, rfl, rfl⟩
  | cons op ops ih =>
    intro σ
    obtain ⟨r, σ1, hop, hc⟩ := perform_cache host op σ
    obtain ⟨σ2, hrun, hc2⟩ := ih σ1
    refine ⟨σ2, ?_, hc2.trans hc⟩
    simp only [performAll, hop]
    exact hrun

/-! ## C12: monotonicity of the consent cache -/

/-- C12: for every session, every finite sequence of calls of the nine methods and every
way the user answers, the sequence runs to the end, every origin that was in
`fetchOriginsTrustedByUser` before is in it afterwards, and every `canFetch` call made
then (for any URL, so also for a URL of such an origin) resolves to `true` without a
dialog. -/
theorem consent_cache_monotone (host : Host) (ops : List Operation) (σ : Session)
    (origin : String) (hin : origin ∈ σ.fetchOriginsTrustedByUser) :
    ∃ σ1, performAll host ops σ = some σ1 ∧
      origin ∈ σ1.fetchOriginsTrustedByUser ∧
      ∀ resourceURL : String,
        SecurityManager.canFetch host resourceURL σ1
          = some (.promiseResolve (.bool true), σ1) := by
  obtain ⟨σ1, hrun, hc⟩ := performAll_cache host ops σ
  exact ⟨σ1, hrun, hc ▸ hin, fun _ => rfl⟩

/-- C12 (witness): a session whose set holds `https://unknown.example`, a user who
declines, and three calls, one of which shows a dialog. -/
theorem consent_cache_monotone_witness :
    ∃ σ1,
      performAll unknownDecliningHost
        [.canLoadExtensionFromProject "https://evil.example/foo.js",
          .canFetch "https://unknown.example/x", .canNotify] approvedSession = some σ1 ∧
      "https://unknown.example" ∈ σ1.fetchOriginsTrustedByUser ∧
      ∀ resourceURL : String,
        SecurityManager.canFetch unknownDecliningHost resourceURL σ1
          = some (.promiseResolve (.bool true), σ1) :=
  consent_cache_monotone unknownDecliningHost _ approvedSession "https://unknown.example"
    (by decide)

/-! ## C13: fetching from an origin that is not on any list -/

/-- C13 (counterexample): `https://unknown.example/x` passes validation, is neither
auto-load trusted nor on the fetch allowlist, and its origin is not in the set; with a
user who would decline, the first `canFetch` call resolves to `true`, shows no dialog
and leaves the set empty. -/
theorem canFetch_unknown_origin_no_dialog :
    parseURL unknownDecliningHost.newURL "https://unknown.example/x"
      = some unknownExampleX ∧
    isTrustedExtension "https://unknown.example/x" = false ∧
    isAlwaysTrustedForFetching unknownExampleX = false ∧
    unknownExampleX.origin ∉ freshSession.fetchOriginsTrustedByUser ∧
    SecurityManager.canFetch unknownDecliningHost "https://unknown.example/x" freshSession
      = some (.promiseResolve (.bool true),
          { prompts := [], fetchOriginsTrustedByUser := [] }) := by
  refine ⟨by decide, by decide, by decide, by decide, rfl⟩

/-- C13 (amended): for a resource URL that passes validation, is neither auto-load
trusted nor on the fetch allowlist, and whose origin is not in the set, the first
`canFetch` call resolves to `true` without a dialog and without inserting anything into
`fetchOriginsTrustedByUser`, and so does a second call. -/
theorem canFetch_unknown_origin (host : Host) (resourceURL : String) (p : URL)
    (σ : Session) (_hvalid : parseURL host.newURL resourceURL = some p)
    (_hload : isTrustedExtension resourceURL = false)
    (_hfetch : isAlwaysTrustedForFetching p = false)
    (hnew : p.origin ∉ σ.fetchOriginsTrustedByUser) :
    ∃ σ1, SecurityManager.canFetch host resourceURL σ
        = some (.promiseResolve (.bool true), σ1) ∧
      σ1.prompts = σ.prompts ∧
      σ1.fetchOriginsTrustedByUser = σ.fetchOriginsTrustedByUser ∧
      p.origin ∉ σ1.fetchOriginsTrustedByUser ∧
      SecurityManager.canFetch host resourceURL σ1
        = some (.promiseResolve (.bool true), σ1) :=
  ⟨σ, canFetch_eq host resourceURL σ, rfl, rfl, hnew, canFetch_eq host resourceURL σ⟩

/-- C13 (witness): the amended statement at `https://unknown.example/x`, a user who
would decline and a fresh session. -/
theorem canFetch_unknown_origin_witness :
    ∃ σ1, SecurityManager.canFetch unknownDecliningHost "https://unknown.example/x"
          freshSession = some (.promiseResolve (.bool true), σ1) ∧
      σ1.prompts = [] ∧
      σ1.fetchOriginsTrustedByUser = [] ∧
      "https://unknown.example" ∉ σ1.fetchOriginsTrustedByUser ∧
      SecurityManager.canFetch unknownDecliningHost "https://unknown.example/x" σ1
        = some (.promiseResolve (.bool true), σ1) :=
  canFetch_unknown_origin unknownDecliningHost "https://unknown.example/x"
    unknownExampleX freshSession (by decide) (by decide) (by decide) (by decide)

/-! ## C14: calling a check twice -/

/-- C14: let the user answer a message the same way whatever was shown before.  Then for
each call of a method of the class (the eight capability checks, and `getSandboxMode` as
well), with any argument and in any session, calling it twice in a row gives the same
result both times, and `fetchOriginsTrustedByUser` after the second call is what it was
after the first. -/
theorem capability_check_idempotent (host : Host)
    (hsame : ∀ (shown1 shown2 : List String) (message : String),
      host.answer shown1 message = host.answer shown2 message)
    (op : Operation) (σ : Session) :
    ∃ r σ1 σ2, op.perform host σ = some (r, σ1) ∧ op.perform host σ1 = some (r, σ2) ∧
      σ2.fetchOriginsTrustedByUser = σ1.fetchOriginsTrustedByUser := by
  cases op with
  | getSandboxMode u =>
    exact ⟨_, _, _, getSandboxMode_eq host u σ, getSandboxMode_eq host u σ, rfl⟩
  | canLoadExtensionFromProject u =>
    have heq := fun τ => canLoadExtensionFromProject_eq host u τ
    cases h : isTrustedExtension u with
    | true =>
      simp only [h, if_true] at heq
      exact ⟨_, _, _, heq σ, heq σ, rfl⟩
    | false =>
      simp only [h, Bool.false_eq_true, if_false] at heq
      refine ⟨_, _,
        { σ with prompts := σ.prompts ++ [Decl.loadExtensionMessage u]
            ++ [Decl.loadExtensionMessage u] }, heq σ, ?_, rfl⟩
      rw [show Operation.perform host (.canLoadExtensionFromProject u)
          = SecurityManager.canLoadExtensionFromProject host u from rfl, heq,
        hsame (σ.prompts ++ [Decl.loadExtensionMessage u]) σ.prompts]
  | canFetch u => exact ⟨_, _, _, rfl, rfl, rfl⟩
  | canOpenWindow u => exact ⟨_, _, _, rfl, rfl, rfl⟩
  | canRedirect u => exact ⟨_, _, _, rfl, rfl, rfl⟩
  | canRecordAudio => exact ⟨_, _, _, rfl, rfl, rfl⟩
  | canRecordVideo => exact ⟨_, _, _, rfl, rfl, rfl⟩
  | canReadClipboard => exact ⟨_, _, _, rfl, rfl, rfl⟩
  | canNotify => exact ⟨_, _, _, rfl, rfl, rfl⟩

/-- C14 (witness): a user who declines every dialog, and two calls in a row of
`canLoadExtensionFromProject("https://evil.example/foo.js")` in a fresh session. -/
theorem capability_check_idempotent_witness :
    ∃ r σ1 σ2,
      Operation.perform decliningHost
        (.canLoadExtensionFromProject "https://evil.example/foo.js") freshSession
          = some (r, σ1) ∧
      Operation.perform decliningHost
        (.canLoadExtensionFromProject "https://evil.example/foo.js") σ1 = some (r, σ2) ∧
      σ2.fetchOriginsTrustedByUser = σ1.fetchOriginsTrustedByUser :=
  capability_check_idempotent decliningHost (fun _ _ _ => rfl)
    (.canLoadExtensionFromProject "https://evil.example/foo.js") freshSession

/-! ## C15: argument types -/

/-- C15 (counterexample): the identifier of the kind `BOOLEAN` is `Boolean`, with a
capital letter; `boolean` is not an identifier of any kind. -/
theorem ArgumentType_BOOLEAN :
    ArgumentType.get "BOOLEAN" = some "Boolean" ∧
    ArgumentType.get "BOOLEAN" ≠ some "boolean" ∧
    ArgumentType.kindOf "boolean" = none := by
  decide

/-- C15 (amended): `ArgumentType` has exactly thirteen kinds, `ANGLE`, `BOOLEAN`,
`COLOR`, `NUMBER`, `STRING`, `MATRIX`, `NOTE`, `IMAGE`, `POLYGON`, `COSTUME`, `SOUND`,
`VARIABLE`, `LIST`, whose identifiers are respectively `angle`, `Boolean`, `color`,
`number`, `string`, `matrix`, `note`, `image`, `polygon`, `costume`, `sound`, `variable`,
`list`; the identifiers are pairwise distinct, and each kind is recovered from its
identifier. -/
theorem ArgumentType_spec :
    ArgumentType.length = 13 ∧
    ArgumentType.map Prod.fst
      = ["ANGLE", "BOOLEAN", "COLOR", "NUMBER", "STRING", "MATRIX", "NOTE", "IMAGE",
          "POLYGON", "COSTUME", "SOUND", "VARIABLE", "LIST"] ∧
    ArgumentType.map Prod.snd
      = ["angle", "Boolean", "color", "number", "string", "matrix", "note", "image",
          "polygon", "costume", "sound", "variable", "list"] ∧
    (ArgumentType.map Prod.fst).Nodup ∧
    (ArgumentType.map Prod.snd).Nodup ∧
    (∀ kv ∈ ArgumentType,
      ArgumentType.get kv.1 = some kv.2 ∧ ArgumentType.kindOf kv.2 = some kv.1) := by
  refine ⟨rfl, rfl, rfl, by decide, by decide, by decide⟩

/-! ## C16: the authority of an auto-load trusted URL -/

theorem authorityText_https (rest : String) :
    authorityText ("https://extensions.turbowarp.org/" ++ rest)
      = some "extensions.turbowarp.org" := by
  have hlist : ("https://extensions.turbowarp.org/" ++ rest).toList
      = 'h' :: 't' :: 't' :: 'p' :: 's' :: ':' :: '/' :: '/' ::
          ("extensions.turbowarp.org/".toList ++ rest.toList) := by
    rw [String.toList, String.data_append]
    rfl
  unfold authorityText
  rw [hlist]
  simp [afterSchemeSeparator, beforeSlash, List.isPrefixOf]

theorem authorityText_http (rest : String) :
    authorityText ("http://localhost:8000/" ++ rest) = some "localhost:8000" := by
  have hlist : ("http://localhost:8000/" ++ rest).toList
      = 'h' :: 't' :: 't' :: 'p' :: ':' :: '/' :: '/' ::
          ("localhost:8000/".toList ++ rest.toList) := by
    rw [String.toList, String.data_append]
    rfl
  unfold authorityText
  rw [hlist]
  simp [afterSchemeSeparator, beforeSlash, List.isPrefixOf]

theorem startsWith_append (p q rest : String) (h : startsWith p q = true) :
    startsWith (p ++ rest) q = true := by
  obtain ⟨r, hr⟩ := (startsWith_iff p q).1 h
  exact (startsWith_iff _ _).2 ⟨r ++ rest, by rw [hr, String.append_assoc]⟩

/-- C16: for every string `url` with `isTrustedExtension(url)` true, either `url` starts
with `https://` and the text between its first `://` and the first `/` after it is
exactly `extensions.turbowarp.org`, or `url` starts with `http://` and that text is
exactly `localhost:8000`.  The four look-alike strings are not trusted, their authority
text differs, and `getSandboxMode` resolves to `iframe` for each of them. -/
theorem isTrustedExtension_authority (host : Host) (σ : Session) :
    (∀ url : String, isTrustedExtension url = true →
      (startsWith url "https://" = true ∧
        authorityText url = some "extensions.turbowarp.org") ∨
      (startsWith url "http://" = true ∧ authorityText url = some "localhost:8000")) ∧
    (isTrustedExtension "https://extensions.turbowarp.org.evil.example/x" = false ∧
      isTrustedExtension "https://extensions.turbowarp.org@evil.example/x" = false ∧
      isTrustedExtension "http://extensions.turbowarp.org/x" = false ∧
      isTrustedExtension "http://localhost:80000/x" = false) ∧
    (authorityText "https://extensions.turbowarp.org.evil.example/x"
        = some "extensions.turbowarp.org.evil.example" ∧
      authorityText "https://extensions.turbowarp.org@evil.example/x"
        = some "extensions.turbowarp.org@evil.example" ∧
      authorityText "http://extensions.turbowarp.org/x" = some "extensions.turbowarp.org" ∧
      authorityText "http://localhost:80000/x" = some "localhost:80000") ∧
    (SecurityManager.getSandboxMode host "https://extensions.turbowarp.org.evil.example/x" σ
        = some (.promiseResolve (.string "iframe"), σ) ∧
      SecurityManager.getSandboxMode host "https://extensions.turbowarp.org@evil.example/x" σ
        = some (.promiseResolve (.string "iframe"), σ) ∧
      SecurityManager.getSandboxMode host "http://extensions.turbowarp.org/x" σ
        = some (.promiseResolve (.string "iframe"), σ) ∧
      SecurityManager.getSandboxMode host "http://localhost:80000/x" σ
        = some (.promiseResolve (.string "iframe"), σ)) := by
  have h1 : isTrustedExtension "https://extensions.turbowarp.org.evil.example/x" = false := by
    decide
  have h2 : isTrustedExtension "https://extensions.turbowarp.org@evil.example/x" = false := by
    decide
  have h3 : isTrustedExtension "http://extensions.turbowarp.org/x" = false := by decide
  have h4 : isTrustedExtension "http://localhost:80000/x" = false := by decide
  refine ⟨?_, ⟨h1, h2, h3, h4⟩, ⟨by decide, by decide, by decide, by decide⟩, ?_, ?_, ?_, ?_⟩
  · intro url h
    rcases (isTrustedExtension_iff url).1 h with ⟨rest, rfl⟩ | ⟨rest, rfl⟩
    · exact Or.inl ⟨startsWith_append _ _ rest (by decide), authorityText_https rest⟩
    · exact Or.inr ⟨startsWith_append _ _ rest (by decide), authorityText_http rest⟩
  · rw [getSandboxMode_eq, h1]
    rfl
  · rw [getSandboxMode_eq, h2]
    rfl
  · rw [getSandboxMode_eq, h3]
    rfl
  · rw [getSandboxMode_eq, h4]
    rfl

/-- C16 (witness): the first part at `https://extensions.turbowarp.org/foo.js`. -/
theorem isTrustedExtension_authority_witness :
    isTrustedExtension "https://extensions.turbowarp.org/foo.js" = true ∧
    ((startsWith "https://extensions.turbowarp.org/foo.js" "https://" = true ∧
        authorityText "https://extensions.turbowarp.org/foo.js"
          = some "extensions.turbowarp.org") ∨
      (startsWith "https://extensions.turbowarp.org/foo.js" "http://" = true ∧
        authorityText "https://extensions.turbowarp.org/foo.js" = some "localhost:8000")) :=
  ⟨by decide,
    (isTrustedExtension_authority decliningHost freshSession).1
      "https://extensions.turbowarp.org/foo.js" (by decide)⟩

/-! ## C17: the load decision and the sandbox mode -/

theorem loadExtensionMessage_sandboxed (url : String) :
    Mentions (Decl.loadExtensionMessage url) "While the code will be sandboxed" := by
  refine ⟨"The project wants to load a custom extension from the URL:\n" ++ url ++ "\n",
    ", it will still have access to information about your device such as your IP and general location. Make sure you trust the author of this extension before continuing.\nAllow this?",
    ?_⟩
  unfold Decl.loadExtensionMessage
  simp only [String.append_assoc]
  rfl

/-- C17: for every string `url` and every session, `canLoadExtensionFromProject(url)`
shows a dialog exactly when `getSandboxMode(url)` resolves to `iframe`, and it returns
`true` with the session untouched exactly when `getSandboxMode(url)` resolves to
`unsandboxed`; the message of the dialog says that the code will be sandboxed. -/
theorem load_dialog_iff_iframe (host : Host) (url : String) (σ : Session) :
    ((∃ r σ1, SecurityManager.canLoadExtensionFromProject host url σ = some (r, σ1) ∧
        σ1.prompts = σ.prompts ++ [Decl.loadExtensionMessage url]) ↔
      SecurityManager.getSandboxMode host url σ
        = some (.promiseResolve (.string "iframe"), σ)) ∧
    ((∃ r σ1, SecurityManager.canLoadExtensionFromProject host url σ = some (r, σ1) ∧
        σ1.prompts ≠ σ.prompts) ↔
      SecurityManager.getSandboxMode host url σ
        = some (.promiseResolve (.string "iframe"), σ)) ∧
    (SecurityManager.canLoadExtensionFromProject host url σ = some (.value (.bool true), σ) ↔
      SecurityManager.getSandboxMode host url σ
        = some (.promiseResolve (.string "unsandboxed"), σ)) ∧
    Mentions (Decl.loadExtensionMessage url) "While the code will be sandboxed" := by
  have hne : σ.prompts ++ [Decl.loadExtensionMessage url] ≠ σ.prompts := by
    intro h
    have hlen := congrArg List.length h
    simp at hlen
  have hmodes : ("unsandboxed" : String) ≠ "iframe" := by decide
  cases h : isTrustedExtension url with
  | true =>
    have hg : SecurityManager.getSandboxMode host url σ
        = some (.promiseResolve (.string "unsandboxed"), σ) := by
      rw [getSandboxMode_eq, h]
      rfl
    have hl : SecurityManager.canLoadExtensionFromProject host url σ
        = some (.value (.bool true), σ) := by
      rw [canLoadExtensionFromProject_eq, h]
      rfl
    have hno : some (Returned.promiseResolve (.string "unsandboxed"), σ)
        ≠ some (Returned.promiseResolve (.string "iframe"), σ) := by
      intro h1
      injection h1 with h1
      injection h1 with h1 _
      injection h1 with h1
      injection h1 with h1
      exact hmodes h1
    rw [hg, hl]
    refine ⟨⟨?_, fun h1 => absurd h1 hno⟩, ⟨?_, fun h1 => absurd h1 hno⟩,
      ⟨fun _ => rfl, fun _ => rfl⟩, loadExtensionMessage_sandboxed url⟩
    · rintro ⟨r, σ1, heq, hp⟩
      injection heq with heq
      injection heq with _ heq
      subst heq
      exact absurd hp.symm hne
    · rintro ⟨r, σ1, heq, hp⟩
      injection heq with heq
      injection heq with _ heq
      subst heq
      exact absurd rfl hp
  | false =>
    have hg : SecurityManager.getSandboxMode host url σ
        = some (.promiseResolve (.string "iframe"), σ) := by
      rw [getSandboxMode_eq, h]
      rfl
    have hl : SecurityManager.canLoadExtensionFromProject host url σ
        = some (.value (.bool (host.answer σ.prompts (Decl.loadExtensionMessage url))),
            { σ with prompts := σ.prompts ++ [Decl.loadExtensionMessage url] }) := by
      rw [canLoadExtensionFromProject_eq, h]
      rfl
    have hno : some (Returned.promiseResolve (.string "iframe"), σ)
        ≠ some (Returned.promiseResolve (.string "unsandboxed"), σ) := by
      intro h1
      injection h1 with h1
      injection h1 with h1 _
      injection h1 with h1
      injection h1 with h1
      exact hmodes h1.symm
    rw [hg, hl]
    refine ⟨⟨fun _ => rfl, fun _ => ⟨_, _, rfl, rfl⟩⟩, ⟨fun _ => rfl, fun _ => ⟨_, _, rfl, hne⟩⟩,
      ⟨?_, fun h1 => absurd h1 hno⟩, loadExtensionMessage_sandboxed url⟩
    intro h1
    injection h1 with h1
    injection h1 with _ h1
    have hp := congrArg Session.prompts h1
    exact absurd hp hne

end TW
